import Mathlib

/-!
Shallow embedding of `code_analyzer.py` (Static Code Analyzer).

The per-line rule checks (S001..S009), the line-scan driver `code_analyzer`,
the AST visitor (`Analyzer`, rules S010..S012), and the drivers `read_file`
and `read_directory` are translated into pure Lean functions.  In the Python
source each rule communicates a hit by raising a dedicated exception that the
driver catches and prints; here a hit is an `Option PyDiag` value carrying the
same rendered text.  A non-diagnostic runtime error (Python `IndexError`) or a
parse failure (`SyntaxError`), which the source does NOT catch, is modelled
with `Except PyErr` / an error component that aborts the enclosing scan, the
way an uncaught Python exception would.

Strings are processed as `List Char`, matching Python `str` indexing and
slicing code-point by code-point (ASCII behaviour of `islower`, `isupper`,
`isalpha`, `\w` and `\s`; the analyzed files are ASCII source code).
-/

namespace StaticAnalyzer

/-- Python whitespace for `str.strip` / regex `\s`: space, tab, newline,
carriage return, vertical tab, form feed. -/
def isPySpace (c : Char) : Bool :=
  c == ' ' || c == '\t' || c == '\n' || c == '\r' || c == Char.ofNat 11 || c == Char.ofNat 12

/-- Python `s.strip()` on the character list: drop whitespace at both ends. -/
def pyStripList (cs : List Char) : List Char :=
  ((cs.dropWhile isPySpace).reverse.dropWhile isPySpace).reverse

/-- Python `s.rstrip()`: drop whitespace at the right end only. -/
def pyRstripList (cs : List Char) : List Char :=
  (cs.reverse.dropWhile isPySpace).reverse

/-- First element equals `x` (used for regex suffix tests on reversed lists). -/
def headIs (x : Char) : List Char → Bool
  | [] => false
  | c :: _ => c == x

/-- First two elements equal `x` then `y`. -/
def headsAre (x y : Char) : List Char → Bool
  | [] => false
  | [_] => false
  | a :: b :: _ => a == x && b == y

/-- Index of the first occurrence of `c`, as Python `str.find` (absent = `none`,
mirroring Python's `-1`). -/
def findChar (c : Char) : List Char → Option Nat
  | [] => none
  | a :: rest => if a == c then some 0 else (findChar c rest).map (fun k => k + 1)

/-- Python substring test `needle in hay`. -/
def isSub (needle : List Char) : List Char → Bool
  | [] => needle.isEmpty
  | c :: t => needle.isPrefixOf (c :: t) || isSub needle t

/-- Everything after the first `#`, as Python `line.split('#', 1)[1]`;
`none` when the line has no `#`. -/
def afterFirstHash : List Char → Option (List Char)
  | [] => none
  | c :: rest => if c == '#' then some rest else afterFirstHash rest

/-- The diagnostic exceptions of the source (`TooLong` .. `FunctionName`),
each carrying what its constructor stores. -/
inductive PyDiag where
  | tooLong (line_number : Nat)
  | indentation (line_number : Nat)
  | semicolon (line_number : Nat)
  | spaces (line_number : Nat)
  | todo (line_number : Nat)
  | blank (line_number : Nat)
  | spacesAfterClass (line_number : Nat) (construction_name : String)
  | className (line_number : Nat) (class_name : String)
  | functionName (line_number : Nat) (function_name : String)
deriving DecidableEq

/-- Non-diagnostic Python exceptions that the source does not catch. -/
inductive PyErr where
  | indexError
  | syntaxError
deriving DecidableEq

/-- The `__str__` rendering of each diagnostic exception. -/
def diagStr : PyDiag → String
  | .tooLong n => "Line " ++ toString n ++ ": S001 Too long"
  | .indentation n => "Line " ++ toString n ++ ": S002 Indentation is not a multiple of four"
  | .semicolon n => "Line " ++ toString n ++ ": S003 Unnecessary semicolon"
  | .spaces n => "Line " ++ toString n ++ ": S004 Less than two spaces before inline comments"
  | .todo n => "Line " ++ toString n ++ ": S005 TODO found"
  | .blank n => "Line " ++ toString n ++ ": S006 More than two blank lines used before this line"
  | .spacesAfterClass n c => "Line " ++ toString n ++ ": S007 Too many spaces after " ++ c
  | .className n c =>
      "Line " ++ toString n ++ ": S008 Class name " ++ c ++ " should be written in CamelCase"
  | .functionName n f =>
      "Line " ++ toString n ++ ": S009 Function name " ++ f ++ " should be written in snake_case"

/-- `check_length`: `len(line.rstrip()) > 79` raises `TooLong` (S001). -/
def check_length (line : String) (line_number : Nat) : Option PyDiag :=
  if (pyRstripList line.toList).length > 79 then some (.tooLong line_number) else none

/-- `check_indentation`: the count of leading literal spaces
(`len(line) - len(line.lstrip(' '))`) not a multiple of 4 raises
`Indentation` (S002). -/
def check_indentation (line : String) (line_number : Nat) : Option PyDiag :=
  if (line.toList.takeWhile (fun c => c == ' ')).length % 4 ≠ 0 then
    some (.indentation line_number)
  else none

/-- Regex `(\s)*#` matched greedily after a `;`: some run of whitespace
followed by `#`. -/
def wsStarHash : List Char → Bool
  | [] => false
  | c :: rest => c == '#' || (isPySpace c && wsStarHash rest)

/-- `re.search` of `;(\s)*#` anywhere in the line (the leading `(.*)` group of
the source pattern matches anything, including the empty string, so it does
not constrain where a match may start). -/
def hasSemiCommentPat : List Char → Bool
  | [] => false
  | c :: rest => (c == ';' && wsStarHash rest) || hasSemiCommentPat rest

/-- Regex `;$`: the line ends with `;`, where `$` also matches just before one
trailing newline (Python `re` semantics). -/
def endsSemi (cs : List Char) : Bool :=
  match cs.reverse with
  | [] => false
  | c :: rest => c == ';' || (c == '\n' && headIs ';' rest)

/-- Regex `.*;` from a given position: a later `;` with no newline in between
(`.` does not match `\n`). -/
def hashSemiFrom : List Char → Bool
  | [] => false
  | c :: rest => c == ';' || (!(c == '\n') && hashSemiFrom rest)

/-- `re.search` of `#.*;`: some `#` followed (newline-free) by a `;`. -/
def containsHashSemi : List Char → Bool
  | [] => false
  | c :: rest => (c == '#' && hashSemiFrom rest) || containsHashSemi rest

/-- `check_semicolon`: fires S003 when
`re.search(r"(.*)(;(\s)*#|;$)", line)` succeeds and
`re.search(r"#.*;", line)` fails. -/
def check_semicolon (line : String) (line_number : Nat) : Option PyDiag :=
  if (hasSemiCommentPat line.toList || endsSemi line.toList)
      && !(containsHashSemi line.toList) then
    some (.semicolon line_number)
  else none

/-- Regex `  $` on the text before the first `#`: it ends with two spaces, or
with two spaces before one trailing newline (`$` semantics as above). -/
def endsTwoSpaces (cs : List Char) : Bool :=
  headsAre ' ' ' ' cs.reverse ||
    (match cs.reverse with
     | [] => false
     | c :: rest => c == '\n' && headsAre ' ' ' ' rest)

/-- `check_spaces` (S004): with `comment_start = line.find('#')`, fire when
`comment_start > 0` and `re.search(r"  $", line[:comment_start])` fails. -/
def check_spaces (line : String) (line_number : Nat) : Option PyDiag :=
  match findChar '#' line.toList with
  | none => none
  | some k =>
    if 0 < k then
      if endsTwoSpaces (line.toList.take k) then none else some (.spaces line_number)
    else none

/-- Python `str.upper` (ASCII). -/
def pyUpperList (cs : List Char) : List Char := cs.map Char.toUpper

/-- `check_todo` (S005): if the line has a `#`, fire when `'TODO'` is a
substring of the uppercased text after the first `#`. -/
def check_todo (line : String) (line_number : Nat) : Option PyDiag :=
  match afterFirstHash line.toList with
  | none => none
  | some comment_part =>
    if isSub ['T', 'O', 'D', 'O'] (pyUpperList comment_part) then
      some (.todo line_number)
    else none

/-- `check_blanks`: on a whitespace-only line return the incremented counter;
on a non-blank line raise `Blank` (S006) when the counter exceeds 2, else
return 0.  (When it raises, the caller in `code_analyzer` resets the counter
to 0 itself.) -/
def check_blanks (line : String) (line_number : Nat) (blank_line_count : Nat) :
    Except PyDiag Nat :=
  if pyStripList line.toList = [] then .ok (blank_line_count + 1)
  else if blank_line_count > 2 then .error (.blank line_number)
  else .ok 0

/-- Regex `\w` (ASCII): letter, digit or underscore. -/
def isWordChar (c : Char) : Bool := c.isAlphanum || c == '_'

/-- First character is a word character. -/
def headIsWord : List Char → Bool
  | [] => false
  | c :: _ => isWordChar c

/-- Tail of regex ` {2,}\w`: at least two spaces, then (after possibly more
spaces, via backtracking) a word character. -/
def wordAfterSpaces : List Char → Bool
  | [] => false
  | c :: r => isWordChar c || (c == ' ' && wordAfterSpaces r)

/-- Two mandatory spaces followed by `wordAfterSpaces`. -/
def twoSpacesThenWord : List Char → Bool
  | ' ' :: ' ' :: r => wordAfterSpaces r
  | _ => false

/-- The part of pattern `^(class|def)(?: {0}| {2,})\w` after the keyword:
zero spaces and a word character, or two-or-more spaces and a word
character. -/
def kwGap (cs : List Char) : Bool := headIsWord cs || twoSpacesThenWord cs

/-- `check_spaces_after_class` (S007) on the already-stripped line. -/
def sacStripped (l : List Char) (line_number : Nat) : Option PyDiag :=
  if "class".toList.isPrefixOf l then
    if kwGap (l.drop 5) then some (.spacesAfterClass line_number "class") else none
  else if "def".toList.isPrefixOf l then
    if kwGap (l.drop 3) then some (.spacesAfterClass line_number "def") else none
  else none

/-- `check_spaces_after_class`: strip the line, then search the anchored
pattern `^(class|def)(?: {0}| {2,})\w`. -/
def check_spaces_after_class (line : String) (line_number : Nat) : Option PyDiag :=
  sacStripped (pyStripList line.toList) line_number

/-- `check_class_name` (S008).  The source does NOT strip the line: it tests
`line.startswith("class")` on the raw line, slices `line[6:][:-2]` and then
evaluates `class_name[0].islower()` — which raises `IndexError` when the
sliced name is empty. -/
def check_class_name (line : String) (line_number : Nat) : Except PyErr (Option PyDiag) :=
  if "class".toList.isPrefixOf line.toList then
    let cs := line.toList.drop 6
    let class_name := cs.take (cs.length - 2)
    match class_name with
    | [] => .error .indexError
    | c :: _ =>
      if c.isLower then .ok (some (.className line_number (String.mk class_name)))
      else .ok none
  else .ok none

/-- `check_function_name` (S009) on the already-stripped line: test
`startswith("def")`, slice `[4:][:-2]`, then `function_name[0].isalpha() and
function_name[0].isupper()` — again `IndexError` on an empty slice. -/
def fnStripped (l : List Char) (line_number : Nat) : Except PyErr (Option PyDiag) :=
  if "def".toList.isPrefixOf l then
    let cs := l.drop 4
    let function_name := cs.take (cs.length - 2)
    match function_name with
    | [] => .error .indexError
    | c :: _ =>
      if c.isAlpha && c.isUpper then
        .ok (some (.functionName line_number (String.mk function_name)))
      else .ok none
  else .ok none

/-- `check_function_name`: `line = line.strip()` first, then the above. -/
def check_function_name (line : String) (line_number : Nat) : Except PyErr (Option PyDiag) :=
  fnStripped (pyStripList line.toList) line_number

/-- The diagnostics printed for one line by the first loop of `code_analyzer`:
`checks = [check_length, check_indentation, check_semicolon, check_spaces,
check_todo]`, each in its own try/except, in list order. -/
def fiveChecks (line : String) (line_number : Nat) : List PyDiag :=
  (check_length line line_number).toList
    ++ (check_indentation line line_number).toList
    ++ (check_semicolon line line_number).toList
    ++ (check_spaces line line_number).toList
    ++ (check_todo line line_number).toList

/-- The `try: blank_line_count = check_blanks(...) except Blank` block of
`code_analyzer`: the printed S006 diagnostics (at most one) and the updated
counter (reset to 0 in the handler when `Blank` was raised). -/
def blankHandle (line : String) (line_number : Nat) (blank_line_count : Nat) :
    List PyDiag × Nat :=
  match check_blanks line line_number blank_line_count with
  | .ok c => ([], c)
  | .error d => ([d], 0)

/-- One iteration of `code_analyzer`'s per-line loop: the printed diagnostics
in print order, the updated blank-line counter, and—in the error
component—an uncaught exception (`IndexError` from `check_class_name` or
`check_function_name`), which in Python aborts the whole loop.  The
`new_checkers` try/excepts catch only `SpacesAfterClass`, `ClassName` and
`FunctionName`, so an `IndexError` escapes after the earlier prints. -/
def lineStep (line : String) (line_number : Nat) (blank_line_count : Nat) :
    List PyDiag × Nat × Option PyErr :=
  let o1 := fiveChecks line line_number
  let b := blankHandle line line_number blank_line_count
  let o3 := (check_spaces_after_class line line_number).toList
  match check_class_name line line_number with
  | .error e => (o1 ++ b.1 ++ o3, b.2, some e)
  | .ok r =>
    match check_function_name line line_number with
    | .error e => (o1 ++ b.1 ++ o3 ++ r.toList, b.2, some e)
    | .ok r2 => (o1 ++ b.1 ++ o3 ++ r.toList ++ r2.toList, b.2, none)

/-- The loop of `code_analyzer` over `enumerate(read, start=1)`, threading the
blank-line counter; an uncaught exception stops the loop, keeping the
diagnostics already printed. -/
def code_analyzer_go : List String → Nat → Nat → List PyDiag × Nat × Option PyErr
  | [], _, blank_line_count => ([], blank_line_count, none)
  | line :: rest, line_number, blank_line_count =>
    match lineStep line line_number blank_line_count with
    | (o, c, some e) => (o, c, some e)
    | (o, c, none) =>
      match code_analyzer_go rest (line_number + 1) c with
      | (o2, c2, e2) => (o ++ o2, c2, e2)

/-- `code_analyzer(read, file_path)`: scan all lines starting from line
number 1 and counter 0.  (The printed strings are `f"{file_path}: {e}"`;
rendering is applied in `read_file`.) -/
def code_analyzer (read : List String) : List PyDiag × Nat × Option PyErr :=
  code_analyzer_go read 1 0

/-- `SNAKE_CASE_PATTERN = re.compile(r'^[a-z_][a-z0-9_]*$')`;
`is_snake_case(name)` is a full match of an (ASCII, newline-free) identifier
against it. -/
def is_snake_case (name : String) : Bool :=
  match name.toList with
  | [] => false
  | c :: rest =>
    (c.isLower || c == '_') && rest.all (fun d => d.isLower || d.isDigit || d == '_')

/-- Syntactic kind of a default-value expression; the visitor only inspects
whether it is an `ast.List`, `ast.Dict` or `ast.Set` literal. -/
inductive ExprKind where
  | listLit
  | dictLit
  | setLit
  | otherExpr
deriving DecidableEq

/-- `node.args` of a function definition: positional and keyword-only
parameter names, positional defaults, and keyword-only defaults
(`kw_defaults` holds `None` for a keyword-only parameter without one). -/
structure PyArgs where
  args : List String
  kwonlyargs : List String
  defaults : List ExprKind
  kw_defaults : List (Option ExprKind)
deriving DecidableEq

mutual
/-- The AST nodes the visitor distinguishes: `FunctionDef`,
`AsyncFunctionDef`, `Name` in `Store` or `Load` context, and every other
node kind (which only contributes its children via `generic_visit`).
Default-value expressions are carried by kind only: they contain no
store-context names and no function definitions, so their sub-structure is
irrelevant to the visitor's output. -/
inductive Node where
  | functionDef (lineno : Nat) (args : PyArgs) (body : NodeList)
  | asyncFunctionDef (lineno : Nat) (args : PyArgs) (body : NodeList)
  | nameStore (lineno : Nat) (id : String)
  | nameLoad (lineno : Nat) (id : String)
  | otherNode (children : NodeList)

/-- Children of a node, in source order. -/
inductive NodeList where
  | nil
  | cons (head : Node) (tail : NodeList)
end

/-- A recorded entry of `Analyzer.errors`: `(lineno, code, message)`. -/
abbrev TreeErr := Nat × String × String

/-- The S010 loop of `visit_FunctionDef`: over
`node.args.args + node.args.kwonlyargs`, appending an error for each
non-snake_case parameter name, at the function definition's line. -/
def s010Errors (lineno : Nat) (args : PyArgs) : List TreeErr :=
  (args.args ++ args.kwonlyargs).filterMap fun a =>
    if is_snake_case a then none
    else some (lineno, "S010", "Argument name \x27" ++ a ++ "\x27 should be written in snake_case")

/-- Is the default an `ast.List`, `ast.Dict` or `ast.Set` literal?
(`isinstance(None, ...)` is false, so a `None` in `kw_defaults` never
matches.) -/
def isMutableDefault : Option ExprKind → Bool
  | some .listLit => true
  | some .dictLit => true
  | some .setLit => true
  | _ => false

/-- The S012 loop of `visit_FunctionDef`: over
`node.args.defaults + node.args.kw_defaults`. -/
def s012Errors (lineno : Nat) (args : PyArgs) : List TreeErr :=
  (args.defaults.map some ++ args.kw_defaults).filterMap fun d =>
    if isMutableDefault d then some (lineno, "S012", "Default argument value is mutable")
    else none

mutual
/-- `Analyzer.visit` on one node.  `ast.NodeVisitor` dispatches on the node's
class name: `FunctionDef` reaches `visit_FunctionDef` (S010 then S012, then
`generic_visit` into the children); `Name` reaches `visit_Name` (S011 on
store context); every other kind — including `AsyncFunctionDef`, for which
no `visit_` method exists — falls back to `generic_visit`, which only
recurses into the children. -/
def visitNode : Node → List TreeErr
  | .functionDef lineno args body =>
      s010Errors lineno args ++ s012Errors lineno args ++ visitNodes body
  | .asyncFunctionDef _ _ body => visitNodes body
  | .nameStore lineno id =>
      if is_snake_case id then []
      else [(lineno, "S011",
             "Variable name \x27" ++ id ++ "\x27 should be written in snake_case")]
  | .nameLoad _ _ => []
  | .otherNode children => visitNodes children

/-- Visit a child list in order, concatenating the recorded errors. -/
def visitNodes : NodeList → List TreeErr
  | .nil => []
  | .cons n rest => visitNode n ++ visitNodes rest
end

/-- `analyze_code` after a successful `ast.parse`: run the visitor on the
tree and return `analyzer.errors`. -/
def analyze_code (tree : Node) : List TreeErr := visitNode tree

/-- One input file as the drivers see it: its path, its `readlines()` result,
and the outcome of `ast.parse` on its full text (`none` models a
`SyntaxError`, which `analyze_code` does not catch). -/
structure PyFile where
  path : String
  lines : List String
  parse : Option Node

/-- Rendering of one line-scanner print: `f"{file_path}: {e}"`. -/
def renderLine (path : String) (d : PyDiag) : String := path ++ ": " ++ diagStr d

/-- Rendering of one tree-scanner print:
`f"{file_path}: Line {error[0]}: {error[1]} {error[2]}"`. -/
def renderTree (path : String) (e : TreeErr) : String :=
  path ++ ": Line " ++ toString e.1 ++ ": " ++ e.2.1 ++ " " ++ e.2.2

/-- Abstraction of Python's `str(e)` for the uncaught exceptions (the exact
wording of `SyntaxError`'s location detail is immaterial here). -/
def pyErrStr : PyErr → String
  | .indexError => "string index out of range"
  | .syntaxError => "invalid syntax"

/-- `read_file`: run `code_analyzer` on the lines (its only `except` clause
catches `FileNotFoundError`), then re-read the file and run `analyze_code`.
Output: the printed diagnostic lines in order, plus an uncaught exception
when the line scan raised (`IndexError`) or `ast.parse` failed
(`SyntaxError`); either one escapes `read_file`. -/
def read_file (f : PyFile) : List String × Option PyErr :=
  let r := code_analyzer f.lines
  let lineOut := r.1.map (renderLine f.path)
  match r.2.2 with
  | some e => (lineOut, some e)
  | none =>
    match f.parse with
    | none => (lineOut, some .syntaxError)
    | some tree => (lineOut ++ (analyze_code tree).map (renderTree f.path), none)

/-- `read_directory`: process the (sorted) files in order inside one `try`;
an exception escaping `read_file` aborts the whole loop and is caught by the
blanket handler, which prints `f"Error reading directory {path}: {e}"` — so
no later file is processed. -/
def read_directory (directory_path : String) : List PyFile → List String
  | [] => []
  | f :: rest =>
    match read_file f with
    | (out, some e) =>
        out ++ ["Error reading directory " ++ directory_path ++ ": " ++ pyErrStr e]
    | (out, none) => out ++ read_directory directory_path rest

/-! ## General helper lemmas -/

theorem toList_append (a b : String) : (a ++ b).toList = a.toList ++ b.toList :=
  String.data_append a b

/-! ## C1 -/

/-- A file whose second line `def f(:` makes `ast.parse` fail (`parse = none`)
while line 1 carries an S003 violation. -/
def c1BadFile : PyFile := ⟨"a.py", ["x = 1;\n", "def f(:\n"], none⟩

/-- C1: the claim demands that a parse failure is file-scoped: line-scanner
diagnostics still reported, no crash, and every remaining file of a
multi-file run still scanned.  In the code the `SyntaxError` raised by
`ast.parse` inside `analyze_code` is never caught in `read_file` (which
handles only `FileNotFoundError`), so it escapes `read_file` — crashing a
single-file run — and aborts `read_directory`'s loop, whose blanket handler
prints one error line: the directory output after the failing file is a
fixed two-line list no matter which files remain, so no later file is
scanned.  (The failing file's own line diagnostics are printed first, as the
claim says.) -/
theorem C1_syntaxerror_aborts_run :
    (read_file c1BadFile).2 = some PyErr.syntaxError
    ∧ ∀ rest : List PyFile, read_directory "test_dir" (c1BadFile :: rest)
        = ["a.py: Line 1: S003 Unnecessary semicolon",
           "Error reading directory test_dir: invalid syntax"] := by
  exact ⟨rfl, fun rest => rfl⟩

/-! ## C2 -/

/-- C2: the claim (from the spec's "these rules never raise") says no line's
text can abort the scan with anything but a diagnostic signal.  But on the
line `classx`, `check_class_name` slices `line[6:][:-2] = ""` and evaluates
`""[0]`, raising `IndexError`; `code_analyzer` catches only the nine
diagnostic exception classes, so the scan of every further line is
abandoned: the whole-file result is the same no matter what follows the
line.  (The S007 diagnostic printed just before the crash survives.) -/
theorem C2_indexerror_aborts_scan :
    check_class_name "classx" 1 = .error PyErr.indexError
    ∧ ∀ rest : List String, code_analyzer ("classx" :: rest)
        = ([PyDiag.spacesAfterClass 1 "class"], 0, some PyErr.indexError) := by
  exact ⟨rfl, fun rest => rfl⟩

/-! ## Counterexample computations -/

/-- C3 counterexample: the first `#` is preceded by three spaces — not by
exactly two — so by the claim S004 must fire; the code's `re.search("  $")`
accepts any run of at least two trailing spaces and does not fire. -/
theorem C3_counterexample : check_spaces "x = 1   # c\n" 1 = none := rfl

/-- C4 counterexample: a code-terminating semicolon followed by a trailing
comment that also contains a `;`.  The claim says S003 still fires; the
code's suppression test `re.search(r"#.*;", line)` matches, so it does not
fire. -/
theorem C4_counterexample : check_semicolon "x = 1;  # see ;\n" 1 = none := rfl

/-- C5 counterexample: the claim says a line whose `class` keyword is a
prefix of a longer identifier yields no S008; on `classfoo = 1` the code
fires S008 (with the garbled sliced name `oo = `). -/
theorem C5_counterexample :
    check_class_name "classfoo = 1\n" 1 = .ok (some (PyDiag.className 1 "oo = ")) := rfl

/-- C7 counterexample: `mastodon` contains the letters t-o-d-o only inside a
longer word, so by the claim S005 must not fire; the code's substring test
`'TODO' in comment.upper()` fires. -/
theorem C7_counterexample : check_todo "# mastodon\n" 1 = some (PyDiag.todo 1) := rfl

/-! ## C3 (amended) -/

theorem findChar_notin_append {c : Char} (xs ys : List Char) (h : c ∉ xs) :
    findChar c (xs ++ c :: ys) = some xs.length := by
  induction xs with
  | nil => simp [findChar]
  | cons a t ih =>
    have ha : ¬a = c := fun he => h (by simp [he])
    have ht : c ∉ t := fun hm => h (List.mem_cons_of_mem _ hm)
    simp [findChar, ha, ih ht]

theorem check_spaces_eq_of_find {line : String} {k n : Nat}
    (hf : findChar '#' line.toList = some k) :
    check_spaces line n =
      if 0 < k then
        if endsTwoSpaces (line.toList.take k) then none else some (.spaces n)
      else none := by
  unfold check_spaces
  rw [hf]

/-- C3 (amended): S004 fires on a line exactly when an inline comment marker
exists at a position > 0 and the text before the first marker does not END
with two spaces, i.e. the marker is not preceded by AT LEAST two spaces (the
regex `  $` also accepts two spaces before a trailing newline); a marker at
position 0 is exempt; in particular a first `#` preceded by three or more
spaces never fires the rule. -/
theorem C3_amended (pre rest : String) (n : Nat) (h : '#' ∉ pre.toList) :
    (pre.toList ≠ [] → endsTwoSpaces pre.toList = false →
       check_spaces (pre ++ "#" ++ rest) n = some (PyDiag.spaces n))
    ∧ (endsTwoSpaces pre.toList = true → check_spaces (pre ++ "#" ++ rest) n = none)
    ∧ check_spaces ("#" ++ rest) n = none
    ∧ check_spaces (pre ++ "   #" ++ rest) n = none := by
  have hl : (pre ++ "#" ++ rest).toList = pre.toList ++ '#' :: rest.toList := by
    simp [toList_append, show ("#" : String).toList = ['#'] from rfl]
  have hfind := findChar_notin_append (c := '#') pre.toList rest.toList h
  have htake : (pre.toList ++ '#' :: rest.toList).take pre.toList.length = pre.toList :=
    List.take_left _ _
  refine ⟨?_, ?_, ?_, ?_⟩
  · intro hne hets
    have hp : 0 < pre.toList.length := List.length_pos.mpr hne
    rw [check_spaces_eq_of_find (by rw [hl]; exact hfind), hl, htake, if_pos hp, hets]
    rfl
  · intro hets
    have hne : pre.toList ≠ [] := by
      intro h0
      rw [h0] at hets
      exact absurd hets (by decide)
    have hp : 0 < pre.toList.length := List.length_pos.mpr hne
    rw [check_spaces_eq_of_find (by rw [hl]; exact hfind), hl, htake, if_pos hp, hets]
    rfl
  · have hf0 : findChar '#' (("#" ++ rest).toList) = some 0 := by
      rw [show ("#" ++ rest).toList = '#' :: rest.toList by
        simp [toList_append, show ("#" : String).toList = ['#'] from rfl]]
      simp [findChar]
    rw [check_spaces_eq_of_find hf0]
    rfl
  · have h4 : '#' ∉ pre.toList ++ [' ', ' ', ' '] := by
      intro hm
      rcases List.mem_append.mp hm with hm | hm
      · exact h hm
      · simp at hm
    have hl4 : (pre ++ "   #" ++ rest).toList
        = (pre.toList ++ [' ', ' ', ' ']) ++ '#' :: rest.toList := by
      simp [toList_append, show ("   #" : String).toList = [' ', ' ', ' ', '#'] from rfl]
    have hfind4 := findChar_notin_append (c := '#') (pre.toList ++ [' ', ' ', ' ']) rest.toList h4
    have htake4 : ((pre.toList ++ [' ', ' ', ' ']) ++ '#' :: rest.toList).take
        (pre.toList ++ [' ', ' ', ' ']).length = pre.toList ++ [' ', ' ', ' '] :=
      List.take_left _ _
    have hets4 : endsTwoSpaces (pre.toList ++ [' ', ' ', ' ']) = true := by
      simp [endsTwoSpaces, List.reverse_append, headsAre]
    have hp4 : 0 < (pre.toList ++ [' ', ' ', ' ']).length := by simp
    rw [check_spaces_eq_of_find (by rw [hl4]; exact hfind4), hl4, htake4, if_pos hp4, hets4]
    rfl

/-- Witness for C3_amended: one space before the marker fires S004, three
spaces do not. -/
theorem C3_amended_witness :
    check_spaces ("x " ++ "#" ++ "c") 1 = some (PyDiag.spaces 1)
    ∧ check_spaces ("x " ++ "   #" ++ "c") 1 = none := by
  have h := C3_amended "x " "c" 1 (by decide)
  exact ⟨h.1 (by decide) (by decide), h.2.2.2⟩

/-! ## C7 (amended) -/

theorem afterFirstHash_append {xs ys : List Char} (h : '#' ∉ xs) :
    afterFirstHash (xs ++ '#' :: ys) = some ys := by
  induction xs with
  | nil => simp [afterFirstHash]
  | cons a t ih =>
    have ha : ¬a = '#' := fun he => h (by simp [he])
    have ht : '#' ∉ t := fun hm => h (List.mem_cons_of_mem _ hm)
    simp [afterFirstHash, ha, ih ht]

theorem afterFirstHash_none {xs : List Char} (h : '#' ∉ xs) :
    afterFirstHash xs = none := by
  induction xs with
  | nil => rfl
  | cons a t ih =>
    have ha : ¬a = '#' := fun he => h (by simp [he])
    have ht : '#' ∉ t := fun hm => h (List.mem_cons_of_mem _ hm)
    simp [afterFirstHash, ha, ih ht]

/-- C7 (amended): S005 fires on a line exactly when the uppercased text after
the first `#` contains `TODO` as a SUBSTRING — not as a delimited token, so
an occurrence inside a longer word (such as `mastodon`) counts; only the
comment portion is inspected, never the code before the first `#`, and a
line without `#` never fires. -/
theorem C7_amended (pre com other : String) (n : Nat)
    (h : '#' ∉ pre.toList) (h2 : '#' ∉ other.toList) :
    (isSub ['T', 'O', 'D', 'O'] (pyUpperList com.toList) = true →
       check_todo (pre ++ "#" ++ com) n = some (PyDiag.todo n))
    ∧ (isSub ['T', 'O', 'D', 'O'] (pyUpperList com.toList) = false →
       check_todo (pre ++ "#" ++ com) n = none)
    ∧ check_todo other n = none := by
  have hl : (pre ++ "#" ++ com).toList = pre.toList ++ '#' :: com.toList := by
    simp [toList_append, show ("#" : String).toList = ['#'] from rfl]
  refine ⟨?_, ?_, ?_⟩
  · intro hs
    unfold check_todo
    rw [hl, afterFirstHash_append h]
    simp only [hs, if_true]
  · intro hs
    unfold check_todo
    rw [hl, afterFirstHash_append h]
    simp only [hs]
    rfl
  · unfold check_todo
    rw [afterFirstHash_none h2]

/-- Witness for C7_amended: a lowercase `todo` in the comment fires S005, a
`TODO` only before the marker does not put it in the comment portion. -/
theorem C7_amended_witness :
    check_todo ("x = 1  " ++ "#" ++ " todo later") 1 = some (PyDiag.todo 1)
    ∧ check_todo "x = TODO_CONST" 1 = none := by
  have h := C7_amended "x = 1  " " todo later" "x = TODO_CONST" 1 (by decide) (by decide)
  exact ⟨h.1 (by decide), h.2.2⟩

/-! ## C4 (amended) -/

theorem hasSemiCommentPat_of_no_semi {cs : List Char} (h : ';' ∉ cs) :
    hasSemiCommentPat cs = false := by
  induction cs with
  | nil => rfl
  | cons c t ih =>
    have hc : ¬c = ';' := fun he => h (by simp [he])
    have ht : ';' ∉ t := fun hm => h (List.mem_cons_of_mem _ hm)
    simp [hasSemiCommentPat, hc, ih ht]

theorem hasSemiCommentPat_append_right {xs ys : List Char}
    (h : hasSemiCommentPat ys = true) : hasSemiCommentPat (xs ++ ys) = true := by
  induction xs with
  | nil => simpa using h
  | cons a t ih => simp [hasSemiCommentPat, ih]

theorem wsStarHash_spaces_hash {sp : List Char} (h : ∀ c ∈ sp, c = ' ') (ys : List Char) :
    wsStarHash (sp ++ '#' :: ys) = true := by
  induction sp with
  | nil => simp [wsStarHash]
  | cons a t ih =>
    have ha : a = ' ' := h a (List.mem_cons_self a t)
    have ht : ∀ c ∈ t, c = ' ' := fun c hc => h c (List.mem_cons_of_mem _ hc)
    subst ha
    simp [wsStarHash, ih ht, isPySpace]

theorem hashSemiFrom_of_no_semi {cs : List Char} (h : ';' ∉ cs) :
    hashSemiFrom cs = false := by
  induction cs with
  | nil => rfl
  | cons c t ih =>
    have hc : ¬c = ';' := fun he => h (by simp [he])
    have ht : ';' ∉ t := fun hm => h (List.mem_cons_of_mem _ hm)
    simp [hashSemiFrom, hc, ih ht]

theorem hashSemiFrom_of_mem {cs : List Char} (hn : '\n' ∉ cs) (hs : ';' ∈ cs) :
    hashSemiFrom cs = true := by
  induction cs with
  | nil => cases hs
  | cons c t ih =>
    have hcn : ¬c = '\n' := fun he => hn (by simp [he])
    have htn : '\n' ∉ t := fun hm => hn (List.mem_cons_of_mem _ hm)
    rcases List.mem_cons.mp hs with he | hm
    · simp [hashSemiFrom, he.symm]
    · simp [hashSemiFrom, hcn, ih htn hm]

theorem containsHashSemi_of_no_hash {cs : List Char} (h : '#' ∉ cs) :
    containsHashSemi cs = false := by
  induction cs with
  | nil => rfl
  | cons c t ih =>
    have hc : ¬c = '#' := fun he => h (by simp [he])
    have ht : '#' ∉ t := fun hm => h (List.mem_cons_of_mem _ hm)
    simp [containsHashSemi, hc, ih ht]

theorem containsHashSemi_append {xs ys : List Char} (h : '#' ∉ xs) :
    containsHashSemi (xs ++ ys) = containsHashSemi ys := by
  induction xs with
  | nil => rfl
  | cons a t ih =>
    have ha : ¬a = '#' := fun he => h (by simp [he])
    have ht : '#' ∉ t := fun hm => h (List.mem_cons_of_mem _ hm)
    simp [containsHashSemi, ha, ih ht]

theorem containsHashSemi_of_no_semi {cs : List Char} (h : ';' ∉ cs) :
    containsHashSemi cs = false := by
  induction cs with
  | nil => rfl
  | cons c t ih =>
    have ht : ';' ∉ t := fun hm => h (List.mem_cons_of_mem _ hm)
    simp [containsHashSemi, hashSemiFrom_of_no_semi ht, ih ht]

theorem endsSemi_append_semi (xs : List Char) : endsSemi (xs ++ [';']) = true := by
  simp [endsSemi, List.reverse_append]

theorem endsSemi_append_semi_nl (xs : List Char) : endsSemi (xs ++ [';', '\n']) = true := by
  simp [endsSemi, List.reverse_append, headIs]

theorem endsSemi_of_no_semi {cs : List Char} (h : ';' ∉ cs) : endsSemi cs = false := by
  unfold endsSemi
  cases hrev : cs.reverse with
  | nil => rfl
  | cons c rest =>
    have hc : c ∈ cs := List.mem_reverse.mp (by rw [hrev]; exact List.mem_cons_self c rest)
    have hc' : ¬c = ';' := fun he => h (he ▸ hc)
    cases rest with
    | nil => simp [headIs, hc']
    | cons d rest2 =>
      have hd : d ∈ cs := List.mem_reverse.mp (by rw [hrev]; simp)
      have hd' : ¬d = ';' := fun he => h (he ▸ hd)
      simp [headIs, hc', hd']

/-- C4 (amended): S003 fires exactly when the line matches `;\s*#` somewhere
or ends with `;` (also just before a final newline) AND no `#` in the line is
followed, newline-free, by a later `;`.  Consequently a `;` occurring only
inside a comment never fires the rule, but also a code-terminating semicolon
whose trailing comment contains a `;` does NOT fire — the comment-exclusion
test suppresses the whole line. -/
theorem C4_amended (code sp com pre : String) (n : Nat) :
    ('#' ∉ code.toList → check_semicolon (code ++ ";") n = some (PyDiag.semicolon n))
    ∧ ('#' ∉ code.toList → check_semicolon (code ++ ";\n") n = some (PyDiag.semicolon n))
    ∧ ('#' ∉ code.toList → (∀ c ∈ sp.toList, c = ' ') → '\n' ∉ com.toList →
         ';' ∈ com.toList →
         check_semicolon (code ++ ";" ++ sp ++ "#" ++ com) n = none)
    ∧ ('#' ∉ code.toList → (∀ c ∈ sp.toList, c = ' ') → ';' ∉ com.toList →
         check_semicolon (code ++ ";" ++ sp ++ "#" ++ com) n = some (PyDiag.semicolon n))
    ∧ (';' ∉ pre.toList → '#' ∉ pre.toList → '\n' ∉ com.toList →
         check_semicolon (pre ++ "#" ++ com) n = none) := by
  have hsemi : (";" : String).toList = [';'] := rfl
  have hmid : (code ++ ";" ++ sp ++ "#" ++ com).toList
      = code.toList ++ ';' :: (sp.toList ++ '#' :: com.toList) := by
    simp [toList_append, hsemi, show ("#" : String).toList = ['#'] from rfl]
  refine ⟨?_, ?_, ?_, ?_, ?_⟩
  · intro h
    have hl : (code ++ ";").toList = code.toList ++ [';'] := by simp [toList_append, hsemi]
    have hnh : '#' ∉ code.toList ++ [';'] := by
      intro hm
      rcases List.mem_append.mp hm with hm | hm
      · exact h hm
      · simp at hm
    unfold check_semicolon
    rw [hl, endsSemi_append_semi, containsHashSemi_of_no_hash hnh]
    simp
  · intro h
    have hl : (code ++ ";\n").toList = code.toList ++ [';', '\n'] := by
      simp [toList_append, show (";\n" : String).toList = [';', '\n'] from rfl]
    have hnh : '#' ∉ code.toList ++ [';', '\n'] := by
      intro hm
      rcases List.mem_append.mp hm with hm | hm
      · exact h hm
      · simp at hm
    unfold check_semicolon
    rw [hl, endsSemi_append_semi_nl, containsHashSemi_of_no_hash hnh]
    simp
  · intro h hsp hnl hin
    have hws : wsStarHash (sp.toList ++ '#' :: com.toList) = true :=
      wsStarHash_spaces_hash hsp _
    have hpat0 : hasSemiCommentPat (';' :: (sp.toList ++ '#' :: com.toList)) = true := by
      unfold hasSemiCommentPat
      rw [hws]
      simp
    have hpat : hasSemiCommentPat ((code ++ ";" ++ sp ++ "#" ++ com).toList) = true := by
      rw [hmid]
      exact hasSemiCommentPat_append_right hpat0
    have hnh : '#' ∉ code.toList ++ [';'] ++ sp.toList := by
      intro hm
      rcases List.mem_append.mp hm with hm | hm
      · rcases List.mem_append.mp hm with hm | hm
        · exact h hm
        · simp at hm
      · have := hsp '#' hm
        simp at this
    have hx : hashSemiFrom com.toList = true := hashSemiFrom_of_mem hnl hin
    have hsup0 : containsHashSemi ('#' :: com.toList) = true := by
      unfold containsHashSemi
      rw [hx]
      simp
    have hsup : containsHashSemi ((code ++ ";" ++ sp ++ "#" ++ com).toList) = true := by
      rw [hmid, show code.toList ++ ';' :: (sp.toList ++ '#' :: com.toList)
            = (code.toList ++ [';'] ++ sp.toList) ++ '#' :: com.toList by simp,
          containsHashSemi_append hnh]
      exact hsup0
    unfold check_semicolon
    rw [hpat, hsup]
    rfl
  · intro h hsp hnotin
    have hws : wsStarHash (sp.toList ++ '#' :: com.toList) = true :=
      wsStarHash_spaces_hash hsp _
    have hpat0 : hasSemiCommentPat (';' :: (sp.toList ++ '#' :: com.toList)) = true := by
      unfold hasSemiCommentPat
      rw [hws]
      simp
    have hpat : hasSemiCommentPat ((code ++ ";" ++ sp ++ "#" ++ com).toList) = true := by
      rw [hmid]
      exact hasSemiCommentPat_append_right hpat0
    have hnh : '#' ∉ code.toList ++ [';'] ++ sp.toList := by
      intro hm
      rcases List.mem_append.mp hm with hm | hm
      · rcases List.mem_append.mp hm with hm | hm
        · exact h hm
        · simp at hm
      · have := hsp '#' hm
        simp at this
    have hx1 : hashSemiFrom com.toList = false := hashSemiFrom_of_no_semi hnotin
    have hx2 : containsHashSemi com.toList = false := containsHashSemi_of_no_semi hnotin
    have hsup0 : containsHashSemi ('#' :: com.toList) = false := by
      unfold containsHashSemi
      rw [hx1, hx2]
      simp
    have hsup : containsHashSemi ((code ++ ";" ++ sp ++ "#" ++ com).toList) = false := by
      rw [hmid, show code.toList ++ ';' :: (sp.toList ++ '#' :: com.toList)
            = (code.toList ++ [';'] ++ sp.toList) ++ '#' :: com.toList by simp,
          containsHashSemi_append hnh]
      exact hsup0
    unfold check_semicolon
    rw [hpat, hsup]
    rfl
  · intro hps hph hnl
    have hl : (pre ++ "#" ++ com).toList = pre.toList ++ '#' :: com.toList := by
      simp [toList_append, show ("#" : String).toList = ['#'] from rfl]
    by_cases hin : ';' ∈ com.toList
    · have hx : hashSemiFrom com.toList = true := hashSemiFrom_of_mem hnl hin
      have hsup0 : containsHashSemi ('#' :: com.toList) = true := by
        unfold containsHashSemi
        rw [hx]
        simp
      have hsup : containsHashSemi ((pre ++ "#" ++ com).toList) = true := by
        rw [hl, containsHashSemi_append hph]
        exact hsup0
      unfold check_semicolon
      rw [hsup]
      simp
    · have hnos : ';' ∉ (pre ++ "#" ++ com).toList := by
        rw [hl]
        intro hm
        rcases List.mem_append.mp hm with hm | hm
        · exact hps hm
        · rcases List.mem_cons.mp hm with hm | hm
          · simp at hm
          · exact hin hm
      unfold check_semicolon
      rw [hasSemiCommentPat_of_no_semi hnos, endsSemi_of_no_semi hnos]
      rfl

/-- Witness for C4_amended: a plain trailing semicolon fires; with a trailing
comment S003 fires only when the comment has no `;`; a semicolon only inside
a comment never fires. -/
theorem C4_amended_witness :
    check_semicolon ("x = 1" ++ ";") 1 = some (PyDiag.semicolon 1)
    ∧ check_semicolon ("x = 1" ++ ";" ++ "  " ++ "#" ++ " see ;") 1 = none
    ∧ check_semicolon ("x = 1" ++ ";" ++ "  " ++ "#" ++ " ok") 1 = some (PyDiag.semicolon 1)
    ∧ check_semicolon ("y = 2  " ++ "#" ++ " see ;") 1 = none := by
  have h1 := C4_amended "x = 1" "  " " see ;" "y = 2  " 1
  have h2 := C4_amended "x = 1" "  " " ok" "y = 2  " 1
  exact ⟨h1.1 (by decide),
         h1.2.2.1 (by decide) (by decide) (by decide) (by decide),
         h2.2.2.2.1 (by decide) (by decide) (by decide),
         h1.2.2.2.2 (by decide) (by decide) (by decide)⟩

/-! ## C5 (amended) -/

theorem isPySpace_space : isPySpace ' ' = true := rfl

/-- C5 (amended): only S009 evaluates its line after stripping leading (and
trailing) whitespace — prefixing a `def` line with spaces never changes the
outcome of `check_function_name` — while S008 does not strip at all, so an
indented `class` definition is never examined; and neither rule requires the
keyword to be followed by a space, so a line whose `class` keyword is the
prefix of a longer identifier is NOT ignored: `classfoo = 1` fires S008 with
the garbled sliced name `oo = `. -/
theorem C5_amended (l : String) (n : Nat) :
    check_class_name ("    " ++ l) n = .ok none
    ∧ check_function_name ("    " ++ l) n = check_function_name l n
    ∧ check_class_name "classfoo = 1\n" n = .ok (some (PyDiag.className n "oo = ")) := by
  have h1 : ("    " ++ l).toList = ' ' :: ' ' :: ' ' :: ' ' :: l.toList := by
    simp [toList_append, show ("    " : String).toList = [' ', ' ', ' ', ' '] from rfl]
  refine ⟨?_, ?_, ?_⟩
  · unfold check_class_name
    rw [h1]
    rfl
  · have h2 : pyStripList ((' ' :: ' ' :: ' ' :: ' ' :: l.toList))
        = pyStripList l.toList := by
      simp [pyStripList, List.dropWhile_cons, isPySpace_space]
    unfold check_function_name
    rw [h1, h2]
  · rfl

/-! ## C6 -/

/-- Is a diagnostic the S006 (`Blank`) one? -/
def isBlankDiag : PyDiag → Bool
  | .blank _ => true
  | _ => false

theorem check_length_not_blank {l : String} {n : Nat} {d : PyDiag}
    (hd : check_length l n = some d) : isBlankDiag d = false := by
  unfold check_length at hd
  split at hd <;> cases hd <;> rfl

theorem check_indentation_not_blank {l : String} {n : Nat} {d : PyDiag}
    (hd : check_indentation l n = some d) : isBlankDiag d = false := by
  unfold check_indentation at hd
  split at hd <;> cases hd <;> rfl

theorem check_semicolon_not_blank {l : String} {n : Nat} {d : PyDiag}
    (hd : check_semicolon l n = some d) : isBlankDiag d = false := by
  unfold check_semicolon at hd
  split at hd <;> cases hd <;> rfl

theorem check_spaces_not_blank {l : String} {n : Nat} {d : PyDiag}
    (hd : check_spaces l n = some d) : isBlankDiag d = false := by
  unfold check_spaces at hd
  split at hd
  · cases hd
  · split at hd
    · split at hd <;> cases hd <;> rfl
    · cases hd

theorem check_todo_not_blank {l : String} {n : Nat} {d : PyDiag}
    (hd : check_todo l n = some d) : isBlankDiag d = false := by
  unfold check_todo at hd
  split at hd
  · cases hd
  · split at hd <;> cases hd <;> rfl

theorem sac_not_blank {l : String} {n : Nat} {d : PyDiag}
    (hd : check_spaces_after_class l n = some d) : isBlankDiag d = false := by
  unfold check_spaces_after_class sacStripped at hd
  split at hd
  · split at hd <;> cases hd <;> rfl
  · split at hd
    · split at hd <;> cases hd <;> rfl
    · cases hd

theorem check_class_name_not_blank {l : String} {n : Nat} {d : PyDiag}
    (hd : check_class_name l n = .ok (some d)) : isBlankDiag d = false := by
  unfold check_class_name at hd
  split at hd
  · dsimp only at hd
    split at hd
    · cases hd
    · split at hd <;> cases hd <;> rfl
  · cases hd

theorem check_function_name_not_blank {l : String} {n : Nat} {d : PyDiag}
    (hd : check_function_name l n = .ok (some d)) : isBlankDiag d = false := by
  unfold check_function_name fnStripped at hd
  split at hd
  · dsimp only at hd
    split at hd
    · cases hd
    · split at hd <;> cases hd <;> rfl
  · cases hd

theorem filter_blank_toList {o : Option PyDiag}
    (h : ∀ d, o = some d → isBlankDiag d = false) :
    o.toList.filter isBlankDiag = [] := by
  cases o with
  | none => rfl
  | some d => simp [Option.toList, List.filter_cons, h d rfl]

theorem fiveChecks_no_blank (l : String) (n : Nat) :
    (fiveChecks l n).filter isBlankDiag = [] := by
  unfold fiveChecks
  rw [List.filter_append, List.filter_append, List.filter_append, List.filter_append]
  rw [filter_blank_toList (fun d hd => check_length_not_blank hd),
      filter_blank_toList (fun d hd => check_indentation_not_blank hd),
      filter_blank_toList (fun d hd => check_semicolon_not_blank hd),
      filter_blank_toList (fun d hd => check_spaces_not_blank hd),
      filter_blank_toList (fun d hd => check_todo_not_blank hd)]
  rfl

theorem blank_not_class {cs : List Char} (h : pyStripList cs = []) :
    "class".toList.isPrefixOf cs = false := by
  cases hb : "class".toList.isPrefixOf cs with
  | false => rfl
  | true =>
    rcases List.isPrefixOf_iff_prefix.mp hb with ⟨t, ht⟩
    exfalso
    have hcs : cs = 'c' :: ("lass".toList ++ t) := by rw [← ht]; rfl
    have hdw : (cs.dropWhile isPySpace) = cs := by
      rw [hcs]
      simp [List.dropWhile_cons, show isPySpace 'c' = false from rfl]
    have : pyStripList cs = [] := h
    unfold pyStripList at this
    rw [hdw] at this
    have h2 : cs.reverse.dropWhile isPySpace = [] := by
      cases he : cs.reverse.dropWhile isPySpace with
      | nil => rfl
      | cons a b => rw [he] at this; simp at this
    have hall : ∀ x ∈ cs.reverse, isPySpace x := List.dropWhile_eq_nil_iff.mp h2
    have : isPySpace 'c' = true := hall 'c' (List.mem_reverse.mpr (by rw [hcs]; simp))
    exact absurd this (by decide)

/-- A blank line (whitespace-only, i.e. `line.strip() == ""`) produces no
diagnostics from either checker list and only increments the counter. -/
theorem lineStep_blank {l : String} (n count : Nat)
    (h : pyStripList l.toList = []) :
    lineStep l n count = (fiveChecks l n, count + 1, none) := by
  have hbl : check_blanks l n count = .ok (count + 1) := by
    unfold check_blanks
    rw [if_pos h]
  have hsac : check_spaces_after_class l n = none := by
    unfold check_spaces_after_class sacStripped
    rw [h]
    rfl
  have hcls : check_class_name l n = .ok none := by
    unfold check_class_name
    rw [blank_not_class h]
    rfl
  have hfn : check_function_name l n = .ok none := by
    unfold check_function_name fnStripped
    rw [h]
    rfl
  unfold lineStep blankHandle
  rw [hbl, hsac, hcls, hfn]
  simp

/-- A non-blank line with counter already above 2: the S006 diagnostic is
printed between the five stateless checks and the remaining checks (none of
which can produce a `blank` diagnostic), and the counter resets to 0. -/
theorem lineStep_nonblank_fire {l : String} (n count : Nat)
    (h : pyStripList l.toList ≠ []) (hc : count > 2) :
    ∃ post err, lineStep l n count = (fiveChecks l n ++ PyDiag.blank n :: post, 0, err)
      ∧ post.filter isBlankDiag = [] := by
  have hbl : check_blanks l n count = .error (.blank n) := by
    unfold check_blanks
    rw [if_neg h, if_pos hc]
  have hsac : (check_spaces_after_class l n).toList.filter isBlankDiag = [] :=
    filter_blank_toList (fun d hd => sac_not_blank hd)
  unfold lineStep blankHandle
  rw [hbl]
  cases hcn : check_class_name l n with
  | error e =>
    refine ⟨(check_spaces_after_class l n).toList, some e, by simp, hsac⟩
  | ok r =>
    have h1 : r.toList.filter isBlankDiag = [] := by
      cases r with
      | none => rfl
      | some d => simp [Option.toList, List.filter_cons, check_class_name_not_blank hcn]
    cases hfn : check_function_name l n with
    | error e =>
      refine ⟨(check_spaces_after_class l n).toList ++ r.toList, some e, by simp, ?_⟩
      rw [List.filter_append, hsac, h1]
      rfl
    | ok r2 =>
      have h2 : r2.toList.filter isBlankDiag = [] := by
        cases r2 with
        | none => rfl
        | some d => simp [Option.toList, List.filter_cons, check_function_name_not_blank hfn]
      refine ⟨(check_spaces_after_class l n).toList ++ r.toList ++ r2.toList, none,
        by simp, ?_⟩
      rw [List.filter_append, List.filter_append, hsac, h1, h2]
      rfl

/-- A non-blank line with counter at most 2: no S006 diagnostic anywhere in
the line's output, and the counter resets to 0. -/
theorem lineStep_nonblank_nofire {l : String} (n count : Nat)
    (h : pyStripList l.toList ≠ []) (hc : ¬count > 2) :
    ∃ post err, lineStep l n count = (fiveChecks l n ++ post, 0, err)
      ∧ post.filter isBlankDiag = [] := by
  have hbl : check_blanks l n count = .ok 0 := by
    unfold check_blanks
    rw [if_neg h, if_neg hc]
  have hsac : (check_spaces_after_class l n).toList.filter isBlankDiag = [] :=
    filter_blank_toList (fun d hd => sac_not_blank hd)
  unfold lineStep blankHandle
  rw [hbl]
  cases hcn : check_class_name l n with
  | error e =>
    refine ⟨(check_spaces_after_class l n).toList, some e, by simp, hsac⟩
  | ok r =>
    have h1 : r.toList.filter isBlankDiag = [] := by
      cases r with
      | none => rfl
      | some d => simp [Option.toList, List.filter_cons, check_class_name_not_blank hcn]
    cases hfn : check_function_name l n with
    | error e =>
      refine ⟨(check_spaces_after_class l n).toList ++ r.toList, some e, by simp, ?_⟩
      rw [List.filter_append, hsac, h1]
      rfl
    | ok r2 =>
      have h2 : r2.toList.filter isBlankDiag = [] := by
        cases r2 with
        | none => rfl
        | some d => simp [Option.toList, List.filter_cons, check_function_name_not_blank hfn]
      refine ⟨(check_spaces_after_class l n).toList ++ r.toList ++ r2.toList, none,
        by simp, ?_⟩
      rw [List.filter_append, List.filter_append, hsac, h1, h2]
      rfl

/-- C6: scanning a run of exactly 3 whitespace-only lines followed by a
non-blank line (starting, as at the beginning of any maximal run, from
counter 0) emits S006 exactly once, at the non-blank line's number `n + 3`,
and leaves the counter reset to 0; a run of exactly 2 blank lines followed by
a non-blank line emits no S006 and also leaves the counter at 0. -/
theorem C6_blank_runs (b1 b2 b3 nb : String) (n : Nat)
    (h1 : pyStripList b1.toList = []) (h2 : pyStripList b2.toList = [])
    (h3 : pyStripList b3.toList = []) (h4 : pyStripList nb.toList ≠ []) :
    ((code_analyzer_go [b1, b2, b3, nb] n 0).1.filter isBlankDiag = [PyDiag.blank (n + 3)]
      ∧ (code_analyzer_go [b1, b2, b3, nb] n 0).2.1 = 0)
    ∧ ((code_analyzer_go [b1, b2, nb] n 0).1.filter isBlankDiag = []
      ∧ (code_analyzer_go [b1, b2, nb] n 0).2.1 = 0) := by
  have s1 : lineStep b1 n 0 = (fiveChecks b1 n, 1, none) := lineStep_blank n 0 h1
  have s2 : lineStep b2 (n + 1) 1 = (fiveChecks b2 (n + 1), 2, none) :=
    lineStep_blank (n + 1) 1 h2
  have s3 : lineStep b3 (n + 2) 2 = (fiveChecks b3 (n + 2), 3, none) :=
    lineStep_blank (n + 2) 2 h3
  constructor
  · obtain ⟨post, err, hstep4, hpost⟩ :=
      lineStep_nonblank_fire (l := nb) (n + 3) 3 h4 (by norm_num)
    have e4 : code_analyzer_go [nb] (n + 3) 3
        = (fiveChecks nb (n + 3) ++ PyDiag.blank (n + 3) :: post, 0, err) := by
      have h0 : code_analyzer_go [nb] (n + 3) 3
          = match lineStep nb (n + 3) 3 with
            | (o, cc, some e) => (o, cc, some e)
            | (o, cc, none) => (o ++ [], cc, none) := rfl
      cases err with
      | some e => rw [h0, hstep4]
      | none =>
        rw [h0, hstep4]
        simp
    have e3 : code_analyzer_go [b3, nb] (n + 2) 2
        = (fiveChecks b3 (n + 2)
            ++ (fiveChecks nb (n + 3) ++ PyDiag.blank (n + 3) :: post), 0, err) := by
      have h0 : code_analyzer_go [b3, nb] (n + 2) 2
          = match lineStep b3 (n + 2) 2 with
            | (o, cc, some e) => (o, cc, some e)
            | (o, cc, none) =>
              match code_analyzer_go [nb] (n + 3) cc with
              | (o2, c2, e2) => (o ++ o2, c2, e2) := rfl
      rw [h0]
      simp only [s3, e4]
    have e2 : code_analyzer_go [b2, b3, nb] (n + 1) 1
        = (fiveChecks b2 (n + 1) ++ (fiveChecks b3 (n + 2)
            ++ (fiveChecks nb (n + 3) ++ PyDiag.blank (n + 3) :: post)), 0, err) := by
      have h0 : code_analyzer_go [b2, b3, nb] (n + 1) 1
          = match lineStep b2 (n + 1) 1 with
            | (o, cc, some e) => (o, cc, some e)
            | (o, cc, none) =>
              match code_analyzer_go [b3, nb] (n + 2) cc with
              | (o2, c2, e2) => (o ++ o2, c2, e2) := rfl
      rw [h0]
      simp only [s2, e3]
    have e1 : code_analyzer_go [b1, b2, b3, nb] n 0
        = (fiveChecks b1 n ++ (fiveChecks b2 (n + 1) ++ (fiveChecks b3 (n + 2)
            ++ (fiveChecks nb (n + 3) ++ PyDiag.blank (n + 3) :: post))), 0, err) := by
      have h0 : code_analyzer_go [b1, b2, b3, nb] n 0
          = match lineStep b1 n 0 with
            | (o, cc, some e) => (o, cc, some e)
            | (o, cc, none) =>
              match code_analyzer_go [b2, b3, nb] (n + 1) cc with
              | (o2, c2, e2) => (o ++ o2, c2, e2) := rfl
      rw [h0]
      simp only [s1, e2]
    rw [e1]
    refine ⟨?_, rfl⟩
    rw [List.filter_append, List.filter_append, List.filter_append, List.filter_append]
    rw [fiveChecks_no_blank, fiveChecks_no_blank, fiveChecks_no_blank, fiveChecks_no_blank]
    rw [List.filter_cons, hpost]
    rfl
  · obtain ⟨post, err, hstep3, hpost⟩ :=
      lineStep_nonblank_nofire (l := nb) (n + 2) 2 h4 (by norm_num)
    have e3 : code_analyzer_go [nb] (n + 2) 2
        = (fiveChecks nb (n + 2) ++ post, 0, err) := by
      have h0 : code_analyzer_go [nb] (n + 2) 2
          = match lineStep nb (n + 2) 2 with
            | (o, cc, some e) => (o, cc, some e)
            | (o, cc, none) => (o ++ [], cc, none) := rfl
      cases err with
      | some e => rw [h0, hstep3]
      | none =>
        rw [h0, hstep3]
        simp
    have e2 : code_analyzer_go [b2, nb] (n + 1) 1
        = (fiveChecks b2 (n + 1) ++ (fiveChecks nb (n + 2) ++ post), 0, err) := by
      have h0 : code_analyzer_go [b2, nb] (n + 1) 1
          = match lineStep b2 (n + 1) 1 with
            | (o, cc, some e) => (o, cc, some e)
            | (o, cc, none) =>
              match code_analyzer_go [nb] (n + 2) cc with
              | (o2, c2, e2) => (o ++ o2, c2, e2) := rfl
      rw [h0]
      simp only [s2, e3]
    have e1 : code_analyzer_go [b1, b2, nb] n 0
        = (fiveChecks b1 n ++ (fiveChecks b2 (n + 1)
            ++ (fiveChecks nb (n + 2) ++ post)), 0, err) := by
      have h0 : code_analyzer_go [b1, b2, nb] n 0
          = match lineStep b1 n 0 with
            | (o, cc, some e) => (o, cc, some e)
            | (o, cc, none) =>
              match code_analyzer_go [b2, nb] (n + 1) cc with
              | (o2, c2, e2) => (o ++ o2, c2, e2) := rfl
      rw [h0]
      simp only [s1, e2]
    rw [e1]
    refine ⟨?_, rfl⟩
    rw [List.filter_append, List.filter_append, List.filter_append]
    rw [fiveChecks_no_blank, fiveChecks_no_blank, fiveChecks_no_blank, hpost]
    rfl

/-- Witness for C6_blank_runs: three newline-only lines before `x = 1` fire
S006 at line 4 exactly once; two newline-only lines fire nothing. -/
theorem C6_blank_runs_witness :
    ((code_analyzer_go ["\n", "\n", "\n", "x = 1\n"] 1 0).1.filter isBlankDiag
        = [PyDiag.blank 4]
      ∧ (code_analyzer_go ["\n", "\n", "\n", "x = 1\n"] 1 0).2.1 = 0)
    ∧ ((code_analyzer_go ["\n", "\n", "x = 1\n"] 1 0).1.filter isBlankDiag = []
      ∧ (code_analyzer_go ["\n", "\n", "x = 1\n"] 1 0).2.1 = 0) :=
  C6_blank_runs "\n" "\n" "\n" "x = 1\n" 1 (by decide) (by decide) (by decide) (by decide)

/-! ## C8 -/

/-- C8: for a function definition with a parameter whose name is not
snake_case and with a list-literal among its positional defaults (as in
`def f(badName=[]):`), the visitor emits both an S010 diagnostic for that
parameter and an S012 diagnostic for the mutable default, both carrying the
function definition's line number. -/
theorem C8_mutable_default (ln : Nat) (args : PyArgs) (body : NodeList) (nm : String)
    (hmem : nm ∈ args.args ++ args.kwonlyargs) (hsnake : is_snake_case nm = false)
    (hdef : ExprKind.listLit ∈ args.defaults) :
    (ln, "S010", "Argument name \x27" ++ nm ++ "\x27 should be written in snake_case")
        ∈ visitNode (.functionDef ln args body)
    ∧ (ln, "S012", "Default argument value is mutable")
        ∈ visitNode (.functionDef ln args body) := by
  have hv : visitNode (.functionDef ln args body)
      = s010Errors ln args ++ s012Errors ln args ++ visitNodes body := by
    rw [visitNode]
  constructor
  · rw [hv, List.append_assoc]
    apply List.mem_append_left
    unfold s010Errors
    exact List.mem_filterMap.mpr ⟨nm, hmem, by rw [hsnake]; rfl⟩
  · rw [hv, List.append_assoc]
    apply List.mem_append_right
    apply List.mem_append_left
    unfold s012Errors
    exact List.mem_filterMap.mpr
      ⟨some ExprKind.listLit,
       List.mem_append_left _ (List.mem_map_of_mem some hdef), rfl⟩

/-- Witness for C8_mutable_default at the spec's example `def f(badName=[]):`
placed at line 3. -/
theorem C8_mutable_default_witness :
    (3, "S010", "Argument name \x27badName\x27 should be written in snake_case")
        ∈ visitNode (.functionDef 3 ⟨["badName"], [], [ExprKind.listLit], []⟩ .nil)
    ∧ (3, "S012", "Default argument value is mutable")
        ∈ visitNode (.functionDef 3 ⟨["badName"], [], [ExprKind.listLit], []⟩ .nil) :=
  C8_mutable_default 3 ⟨["badName"], [], [ExprKind.listLit], []⟩ .nil "badName"
    (by simp) (by decide) (by simp)

/-! ## C10 -/

/-- C10: `ast.NodeVisitor` dispatch reaches `visit_FunctionDef` only for
plain `def` nodes; an `async def` node falls back to `generic_visit`, so the
node itself emits no S010/S012 no matter what its parameters or defaults are
— its whole contribution is the visit of its children, and with an empty
body it contributes nothing. -/
theorem C10_async_no_diags (ln : Nat) (args : PyArgs) (body : NodeList) :
    visitNode (.asyncFunctionDef ln args body) = visitNodes body
    ∧ visitNode (.asyncFunctionDef ln args .nil) = [] := by
  constructor <;> rfl

/-! ## C9 -/

/-- C9: the checker's full diagnostic output (line-scanner and tree-scanner
diagnostics, in order) is a function of the file's content alone — the
embedding of `read_file` is pure, so two runs over identical content produce
byte-identical output. -/
theorem C9_deterministic (f g : PyFile) (hp : f.path = g.path)
    (hl : f.lines = g.lines) (ht : f.parse = g.parse) : read_file f = read_file g := by
  cases f
  cases g
  simp only at hp hl ht
  subst hp
  subst hl
  subst ht
  rfl

/-- Witness for C9_deterministic: two runs on one concrete file agree. -/
theorem C9_deterministic_witness :
    read_file ⟨"t.py", ["x = 1\n"], some (Node.otherNode NodeList.nil)⟩
      = read_file ⟨"t.py", ["x = 1\n"], some (Node.otherNode NodeList.nil)⟩ :=
  C9_deterministic _ _ rfl rfl rfl

end StaticAnalyzer
